import Mathlib

/-!
Shallow embedding of `window.py` (TaskBoard-For-Ubuntu-Gnome), the single
source file of the repository.  The program is a PyQt6 reminder dialog whose
behaviour is driven by three external invocations of the `task` command-line
tool: a one-time startup count query (`main`, lines 262-281), a submit action
(`TaskDialog.on_submit`, lines 203-230) and a periodic re-check
(`TaskDialog.check_tasks_external`, lines 243-247), all going through the
count predicate `TaskDialog.has_valid_tasks` (lines 232-241).

External process invocations are modelled by their observable outcome
(`RunResult`): either the process ran and produced a return code, stdout and
stderr, or `subprocess.run` raised an exception before a result existed.
The transient UI state of the dialog is `DialogState`; the side effects of a
handler (which external commands it started, whether it scheduled the
application to quit) are returned explicitly.
-/

/-- Outcome of one `subprocess.run([...], capture_output=True, text=True)`
call: either the child process ran to completion (`ok returncode stdout
stderr`) or the invocation itself raised an exception with message `e`
(for instance `FileNotFoundError` when the `task` binary is absent). -/
inductive RunResult where
  | ok (returncode : Int) (stdout : String) (stderr : String)
  | raise (e : String)
deriving DecidableEq

/-- Model of Python `str.strip()` with no argument: remove leading and
trailing whitespace characters. -/
def pyStrip (s : String) : String :=
  String.mk (((s.data.dropWhile Char.isWhitespace).reverse.dropWhile Char.isWhitespace).reverse)

/-- Accumulator loop for `digitsVal`: consume decimal digits left to right. -/
def digitsValAux : List Char → Nat → Option Nat
  | [], acc => some acc
  | c :: cs, acc =>
      if c.isDigit then digitsValAux cs (acc * 10 + (c.toNat - 48)) else none

/-- Value of a non-empty all-digit character list; `none` when the list is
empty or contains a non-digit. -/
def digitsVal : List Char → Option Nat
  | [] => none
  | c :: cs => if c.isDigit then digitsValAux cs (c.toNat - 48) else none

/-- Model of Python `int(s)` on an already-stripped string: an optional sign
followed by at least one decimal digit; anything else raises `ValueError`,
modelled as `none`. -/
def pyInt (s : String) : Option Int :=
  match s.data with
  | '+' :: rest => (digitsVal rest).map (fun n => (n : Int))
  | '-' :: rest => (digitsVal rest).map (fun n => -(n : Int))
  | cs => (digitsVal cs).map (fun n => (n : Int))

/-- Model of Python `str.split()` with no argument: split on runs of
whitespace, discarding empty pieces.  `acc` holds the characters of the
current word, reversed. -/
def splitWsAux : List Char → List Char → List String
  | [], acc => if acc.isEmpty then [] else [String.mk acc.reverse]
  | c :: cs, acc =>
      if c.isWhitespace then
        if acc.isEmpty then splitWsAux cs [] else String.mk acc.reverse :: splitWsAux cs []
      else
        splitWsAux cs (c :: acc)

/-- Model of Python `str.split()` with no argument. -/
def pySplit (s : String) : List String :=
  splitWsAux s.data []

/-- Argument vector of the count query (`window.py` lines 234-238 and
265-269): `task due.before:now+23h status:pending -OVERDUE count`. -/
def queryArgv : List String :=
  ["task", "due.before:now+23h", "status:pending", "-OVERDUE", "count"]

/-- Argument vector of the add invocation (`window.py` line 212):
`["task", "add"] + task_input.split()`. -/
def addArgv (taskInput : String) : List String :=
  ["task", "add"] ++ pySplit taskInput

/-- `TaskDialog.has_valid_tasks` (`window.py` lines 232-241): run the count
query, return `int(result.stdout.strip()) > 0`; the surrounding
`try ... except: return False` turns any exception (invocation failure, or
`ValueError` from `int`) into `False`.  The return code is not inspected. -/
def has_valid_tasks : RunResult → Bool
  | RunResult.ok _ out _ =>
      match pyInt (pyStrip out) with
      | some n => decide (0 < n)
      | none => false
  | RunResult.raise _ => false

/-- Severity of the status line, read off the stylesheet colour set by
`show_error` / `show_warning` / `show_success`; `neutral` is the initial
hint style. -/
inductive Severity where
  | neutral
  | error
  | warning
  | success
deriving DecidableEq

/-- Transient UI state of `TaskDialog` that the claims are about: the text
of the input field `self.entry`, the status label text and severity, and
whether the two recurring timers (`check_timer`, every 2000 ms, and
`top_timer`, every 500 ms) are running. -/
structure DialogState where
  entry : String
  statusText : String
  statusSev : Severity
  checkTimerRunning : Bool
  topTimerRunning : Bool
deriving DecidableEq

/-- State of the dialog right after `__init__` / `initUI`: empty input,
neutral hint in the status line, both timers started. -/
def initialDialog : DialogState :=
  { entry := ""
  , statusText := "提示：此窗口将保持打开直到您添加有效任务（可拖动窗口）"
  , statusSev := Severity.neutral
  , checkTimerRunning := true
  , topTimerRunning := true }

/-- `TaskDialog.show_error` (`window.py` lines 249-251). -/
def show_error (s : DialogState) (msg : String) : DialogState :=
  { s with statusText := "❌ " ++ msg, statusSev := Severity.error }

/-- `TaskDialog.show_warning` (`window.py` lines 253-255). -/
def show_warning (s : DialogState) (msg : String) : DialogState :=
  { s with statusText := "⚠️ " ++ msg, statusSev := Severity.warning }

/-- `TaskDialog.show_success` (`window.py` lines 257-259). -/
def show_success (s : DialogState) : DialogState :=
  { s with statusText := "✓ 任务已成功添加！", statusSev := Severity.success }

/-- Environment of one `on_submit` run: the outcome of the
`subprocess.run(["task", "add"] + ...)` call, and the outcome of the count
query that `has_valid_tasks` would perform if reached. -/
structure SubmitEnv where
  addResult : RunResult
  queryResult : RunResult

/-- Observable side effects of one `on_submit` run: the argument vectors of
the external commands it invoked, in order, and the delay of a
`QTimer.singleShot(_, QApplication.quit)` if one was scheduled. -/
structure SubmitEffects where
  invoked : List (List String)
  quitAfterMs : Option Nat
deriving DecidableEq

/-- `TaskDialog.on_submit` (`window.py` lines 203-230):
strip the entry text; if empty, `show_error("请输入任务内容")` and return.
Otherwise run `task add` with the whitespace-split tokens; an exception `e`
gives `show_error("执行错误：" + e)`, a non-zero return code gives
`show_error("添加失败：" + stderr)`, both returning with the entry intact.
On return code 0, re-run `has_valid_tasks`: if true, `show_success()` and
schedule `QApplication.quit` after 1000 ms; if false,
`show_warning("任务已添加，但到期时间不在未来 23 小时内")` and clear the entry. -/
def on_submit (s : DialogState) (env : SubmitEnv) : DialogState × SubmitEffects :=
  let taskInput := pyStrip s.entry
  if taskInput = "" then
    (show_error s "请输入任务内容", { invoked := [], quitAfterMs := none })
  else
    match env.addResult with
    | RunResult.raise e =>
        (show_error s ("执行错误：" ++ e),
         { invoked := [addArgv taskInput], quitAfterMs := none })
    | RunResult.ok rc _ err =>
        if rc ≠ 0 then
          (show_error s ("添加失败：" ++ err),
           { invoked := [addArgv taskInput], quitAfterMs := none })
        else if has_valid_tasks env.queryResult then
          (show_success s,
           { invoked := [addArgv taskInput, queryArgv], quitAfterMs := some 1000 })
        else
          ({ show_warning s "任务已添加，但到期时间不在未来 23 小时内" with entry := "" },
           { invoked := [addArgv taskInput, queryArgv], quitAfterMs := none })

/-- `TaskDialog.check_tasks_external` (`window.py` lines 243-247): if
`has_valid_tasks()` then stop both timers and call `QApplication.quit()`,
otherwise do nothing.  The Bool component records whether
`QApplication.quit()` was called. -/
def check_tasks_external (s : DialogState) (q : RunResult) : DialogState × Bool :=
  if has_valid_tasks q then
    ({ s with checkTimerRunning := false, topTimerRunning := false }, true)
  else
    (s, false)

/-- Exceptions that the startup try-block of `main` can raise: the
`SystemExit` raised by `sys.exit(0)`, the `ValueError` raised by `int` on
non-numeric text, or an OS-level error from `subprocess.run`. -/
inductive PyExc where
  | systemExit (code : Nat)
  | valueError
  | osError (e : String)
deriving DecidableEq

/-- The body of the `try` block in `main` (`window.py` lines 264-271): run
the count query; on a positive parsed count call `sys.exit(0)`, which in
Python works by raising `SystemExit(0)`. -/
def startupBody : RunResult → Except PyExc Unit
  | RunResult.raise e => Except.error (PyExc.osError e)
  | RunResult.ok _ out _ =>
      match pyInt (pyStrip out) with
      | none => Except.error PyExc.valueError
      | some n => if 0 < n then Except.error (PyExc.systemExit 0) else Except.ok ()

/-- A bare `except:` clause in Python catches `BaseException`, which
includes the `SystemExit` raised by `sys.exit` as well as `ValueError` and
OS errors: it catches every exception the startup body can raise. -/
def bareExceptCatches : PyExc → Bool := fun _ => true

/-- What the process does at startup: exit before any window exists (with
the given exit code), or create the `TaskDialog`, show it and enter the
event loop. -/
inductive StartupOutcome where
  | exitNoWindow (code : Nat)
  | showWindow
deriving DecidableEq

namespace Window

/-- `main` (`window.py` lines 262-281): run `startupBody` inside
`try ... except: pass`; any exception the bare `except` catches is
discarded, after which the `QApplication` is built and the dialog is
created and shown.  An exception the clause did not catch would propagate:
`SystemExit c` would end the process with exit code `c` before any window,
any other uncaught exception would abort the interpreter (exit code 1). -/
def main (q : RunResult) : StartupOutcome :=
  match startupBody q with
  | Except.error e =>
      if bareExceptCatches e then
        StartupOutcome.showWindow
      else
        match e with
        | PyExc.systemExit c => StartupOutcome.exitNoWindow c
        | _ => StartupOutcome.exitNoWindow 1
  | Except.ok _ => StartupOutcome.showWindow

end Window

example : pyStrip "  2 " = "2" := by decide
example : pyInt "2" = some 2 := by decide
example : pyInt "" = none := by decide
example : pyInt "-3" = some (-3) := by decide
example : pyInt "2a" = none := by decide
example : pySplit "buy milk  due:today" = ["buy", "milk", "due:today"] := by decide
example : has_valid_tasks (RunResult.ok 0 "2\n" "") = true := by decide
example : has_valid_tasks (RunResult.raise "FileNotFoundError") = false := by decide
example : Window.main (RunResult.ok 0 "2\n" "") = StartupOutcome.showWindow := by decide

lemma main_always_shows_window (q : RunResult) :
    Window.main q = StartupOutcome.showWindow := by
  unfold Window.main
  cases startupBody q with
  | error e => simp [bareExceptCatches]
  | ok u => rfl

/-- C1: the claim says that when the startup query returns a positive count
the process exits immediately with code 0 and never creates a window.  The
code does call `sys.exit(0)` there, but `sys.exit` works by raising
`SystemExit`, and the surrounding bare `except: pass` catches it, so
control falls through and the window is created and shown anyway: on
stdout "2" the startup body raises `SystemExit(0)`, yet `main` still shows
the window. -/
theorem c1_positive_count_window_still_shown :
    startupBody (RunResult.ok 0 "2" "") = Except.error (PyExc.systemExit 0) ∧
    Window.main (RunResult.ok 0 "2" "") = StartupOutcome.showWindow :=
  ⟨rfl, rfl⟩

/-- C2 counterexample: the claim says a failed startup query makes the
process terminate without showing any window; but on an invocation failure
the bare `except: pass` swallows the exception and the window is shown. -/
theorem c2_counterexample_failure_shows_window :
    Window.main (RunResult.raise "FileNotFoundError") = StartupOutcome.showWindow :=
  rfl

/-- C2 (amended): at startup, if the query invocation fails or its stdout
is non-numeric, the process does not terminate at the startup check: it
creates and shows the reminder window (fail-open, like every later check). -/
theorem c2_amended_startup_failure_fail_open (q : RunResult)
    (_h : (∃ e, q = RunResult.raise e) ∨
         ∃ rc out err, q = RunResult.ok rc out err ∧ pyInt (pyStrip out) = none) :
    Window.main q = StartupOutcome.showWindow :=
  main_always_shows_window q

theorem c2_amended_witness :
    Window.main (RunResult.raise "No such file or directory") = StartupOutcome.showWindow :=
  c2_amended_startup_failure_fail_open _ (Or.inl ⟨_, rfl⟩)

/-- C3: for every startup query outcome that is the integer 0, non-numeric
text, or a failed invocation, the process creates and shows the reminder
window. -/
theorem c3_startup_window_shown (q : RunResult)
    (_h : (∃ rc out err, q = RunResult.ok rc out err ∧ pyInt (pyStrip out) = some 0) ∨
         (∃ rc out err, q = RunResult.ok rc out err ∧ pyInt (pyStrip out) = none) ∨
         (∃ e, q = RunResult.raise e)) :
    Window.main q = StartupOutcome.showWindow :=
  main_always_shows_window q

theorem c3_witness :
    Window.main (RunResult.ok 0 "0\n" "") = StartupOutcome.showWindow :=
  c3_startup_window_shown _ (Or.inl ⟨0, "0\n", "", rfl, by decide⟩)

/-- C4: `has_valid_tasks` returns true exactly when the query ran to
completion and its stdout, stripped, parses as an integer strictly greater
than 0; an invocation failure or non-numeric stdout yields false (and the
return code is never inspected). -/
theorem c4_has_valid_tasks_iff (q : RunResult) :
    has_valid_tasks q = true ↔
      ∃ rc out err n, q = RunResult.ok rc out err ∧ pyInt (pyStrip out) = some n ∧ 0 < n := by
  constructor
  · intro htrue
    cases q with
    | raise e => simp [has_valid_tasks] at htrue
    | ok rc out err =>
        have htrue2 : (match pyInt (pyStrip out) with
            | some n => decide (0 < n)
            | none => false) = true := htrue
        cases hp : pyInt (pyStrip out) with
        | none =>
            rw [hp] at htrue2
            exact absurd htrue2 (by decide)
        | some n =>
            rw [hp] at htrue2
            exact ⟨rc, out, err, n, rfl, hp, of_decide_eq_true htrue2⟩
  · rintro ⟨rc, out, err, n, rfl, hp, hn⟩
    show (match pyInt (pyStrip out) with
        | some n => decide (0 < n)
        | none => false) = true
    rw [hp]
    exact decide_eq_true hn

theorem c4_witness :
    has_valid_tasks (RunResult.ok 1 " 2 " "warning text") = true :=
  (c4_has_valid_tasks_iff (RunResult.ok 1 " 2 " "warning text")).mpr
    ⟨1, " 2 ", "warning text", 2, rfl, by decide, by decide⟩

/-- C5: on empty or whitespace-only input, `on_submit` shows the
empty-input error, starts no external process, schedules no quit, and
leaves the entry text and both timers exactly as they were. -/
theorem c5_empty_input_no_invocation (s : DialogState) (env : SubmitEnv)
    (h : pyStrip s.entry = "") :
    on_submit s env =
      ({ s with statusText := "❌ " ++ "请输入任务内容", statusSev := Severity.error },
       { invoked := [], quitAfterMs := none }) := by
  simp [on_submit, h, show_error]

theorem c5_witness :
    on_submit { initialDialog with entry := "   " }
        { addResult := RunResult.raise "boom", queryResult := RunResult.raise "boom" } =
      ({ initialDialog with
          entry := "   ",
          statusText := "❌ " ++ "请输入任务内容",
          statusSev := Severity.error },
       { invoked := [], quitAfterMs := none }) :=
  c5_empty_input_no_invocation { initialDialog with entry := "   " }
    { addResult := RunResult.raise "boom", queryResult := RunResult.raise "boom" } (by decide)

/-- C6: on non-empty input, the first external command `on_submit` starts
is the add command, whose argument vector is exactly `task add` followed by
the whitespace-split tokens of the stripped input, in order, unmodified. -/
theorem c6_tokens_passed_in_order (s : DialogState) (env : SubmitEnv)
    (h : pyStrip s.entry ≠ "") :
    ((on_submit s env).2.invoked).head? = some (["task", "add"] ++ pySplit (pyStrip s.entry)) := by
  cases har : env.addResult with
  | raise e => simp [on_submit, h, har, addArgv]
  | ok rc out err =>
      by_cases hrc : rc = 0
      · cases hq : has_valid_tasks env.queryResult with
        | true => simp [on_submit, h, har, hrc, hq, addArgv]
        | false => simp [on_submit, h, har, hrc, hq, addArgv]
      · simp [on_submit, h, har, hrc, addArgv]

theorem c6_witness :
    ((on_submit { initialDialog with entry := " buy milk  due:today " }
        { addResult := RunResult.ok 0 "" "", queryResult := RunResult.ok 0 "1" "" }).2.invoked).head? =
      some ["task", "add", "buy", "milk", "due:today"] :=
  (c6_tokens_passed_in_order { initialDialog with entry := " buy milk  due:today " }
    { addResult := RunResult.ok 0 "" "", queryResult := RunResult.ok 0 "1" "" }
    (by decide)).trans (by decide)

/-- C7: when the add command exits non-zero, or its invocation raises, the
status becomes an error whose text embeds the captured stderr (resp. the
exception text) verbatim; the entry and both timers are untouched, no quit
is scheduled, and the post-add count query is never run (the add command is
the only invocation). -/
theorem c7_add_failure_preserves_input (s : DialogState) (env : SubmitEnv)
    (h : pyStrip s.entry ≠ "")
    (hfail : (∃ e, env.addResult = RunResult.raise e) ∨
             ∃ rc out err, env.addResult = RunResult.ok rc out err ∧ rc ≠ 0) :
    (on_submit s env).1.statusSev = Severity.error ∧
    (on_submit s env).1.entry = s.entry ∧
    (on_submit s env).1.checkTimerRunning = s.checkTimerRunning ∧
    (on_submit s env).1.topTimerRunning = s.topTimerRunning ∧
    (on_submit s env).2.invoked = [addArgv (pyStrip s.entry)] ∧
    (on_submit s env).2.quitAfterMs = none ∧
    (∀ e, env.addResult = RunResult.raise e →
        (on_submit s env).1.statusText = "❌ " ++ ("执行错误：" ++ e)) ∧
    (∀ rc out err, env.addResult = RunResult.ok rc out err →
        (on_submit s env).1.statusText = "❌ " ++ ("添加失败：" ++ err)) := by
  cases har : env.addResult with
  | raise e =>
      simp [on_submit, h, har, show_error]
  | ok rc out err =>
      have hrc : rc ≠ 0 := by
        rcases hfail with ⟨e, he⟩ | ⟨rc1, out1, err1, heq, hrc1⟩
        · rw [har] at he; exact absurd he (by simp)
        · rw [har] at heq
          obtain ⟨h1, h2, h3⟩ := RunResult.ok.inj heq
          rw [h1]; exact hrc1
      simp [on_submit, h, har, hrc, show_error]

theorem c7_witness :
    ((on_submit { initialDialog with entry := "meeting due:2h" }
        { addResult := RunResult.ok 1 "" "invalid date", queryResult := RunResult.ok 0 "1" "" }).1.entry
      = ({ initialDialog with entry := "meeting due:2h" } : DialogState).entry) ∧
    ((on_submit { initialDialog with entry := "meeting due:2h" }
        { addResult := RunResult.ok 1 "" "invalid date", queryResult := RunResult.ok 0 "1" "" }).2.quitAfterMs
      = none) :=
  ⟨(c7_add_failure_preserves_input { initialDialog with entry := "meeting due:2h" }
      { addResult := RunResult.ok 1 "" "invalid date", queryResult := RunResult.ok 0 "1" "" }
      (by decide) (Or.inr ⟨1, "", "invalid date", rfl, by decide⟩)).2.1,
   (c7_add_failure_preserves_input { initialDialog with entry := "meeting due:2h" }
      { addResult := RunResult.ok 1 "" "invalid date", queryResult := RunResult.ok 0 "1" "" }
      (by decide) (Or.inr ⟨1, "", "invalid date", rfl, by decide⟩)).2.2.2.2.2.1⟩

/-- C8: when the add command exits 0 and the re-run count predicate is
true, the status becomes the success message and a quit of the application
is scheduled with a 1000 ms delay. -/
theorem c8_success_schedules_quit (s : DialogState) (env : SubmitEnv)
    (h : pyStrip s.entry ≠ "")
    (rc : Int) (out err : String)
    (ha : env.addResult = RunResult.ok rc out err) (hrc : rc = 0)
    (hq : has_valid_tasks env.queryResult = true) :
    (on_submit s env).1.statusText = "✓ 任务已成功添加！" ∧
    (on_submit s env).1.statusSev = Severity.success ∧
    (on_submit s env).2.quitAfterMs = some 1000 := by
  subst hrc
  simp [on_submit, h, ha, hq, show_success]

theorem c8_witness :
    ((on_submit { initialDialog with entry := "buy milk due:today" }
        { addResult := RunResult.ok 0 "" "", queryResult := RunResult.ok 0 "1\n" "" }).1.statusText
      = "✓ 任务已成功添加！") ∧
    ((on_submit { initialDialog with entry := "buy milk due:today" }
        { addResult := RunResult.ok 0 "" "", queryResult := RunResult.ok 0 "1\n" "" }).2.quitAfterMs
      = some 1000) :=
  ⟨(c8_success_schedules_quit { initialDialog with entry := "buy milk due:today" }
      { addResult := RunResult.ok 0 "" "", queryResult := RunResult.ok 0 "1\n" "" }
      (by decide) 0 "" "" rfl rfl (by decide)).1,
   (c8_success_schedules_quit { initialDialog with entry := "buy milk due:today" }
      { addResult := RunResult.ok 0 "" "", queryResult := RunResult.ok 0 "1\n" "" }
      (by decide) 0 "" "" rfl rfl (by decide)).2.2⟩

/-- C9: when the add command exits 0 and the re-run count predicate is
false, the status becomes the not-within-23-hours warning, the entry is
cleared, no quit is scheduled, and both timers keep running. -/
theorem c9_warning_clears_input_stays_open (s : DialogState) (env : SubmitEnv)
    (h : pyStrip s.entry ≠ "")
    (rc : Int) (out err : String)
    (ha : env.addResult = RunResult.ok rc out err) (hrc : rc = 0)
    (hq : has_valid_tasks env.queryResult = false) :
    (on_submit s env).1.statusText = "⚠️ " ++ "任务已添加，但到期时间不在未来 23 小时内" ∧
    (on_submit s env).1.statusSev = Severity.warning ∧
    (on_submit s env).1.entry = "" ∧
    (on_submit s env).1.checkTimerRunning = s.checkTimerRunning ∧
    (on_submit s env).1.topTimerRunning = s.topTimerRunning ∧
    (on_submit s env).2.quitAfterMs = none := by
  subst hrc
  simp [on_submit, h, ha, hq, show_warning]

theorem c9_witness :
    ((on_submit { initialDialog with entry := "file taxes due:2027-04-15" }
        { addResult := RunResult.ok 0 "" "", queryResult := RunResult.ok 0 "0\n" "" }).1.entry
      = "") ∧
    ((on_submit { initialDialog with entry := "file taxes due:2027-04-15" }
        { addResult := RunResult.ok 0 "" "", queryResult := RunResult.ok 0 "0\n" "" }).2.quitAfterMs
      = none) :=
  ⟨(c9_warning_clears_input_stays_open { initialDialog with entry := "file taxes due:2027-04-15" }
      { addResult := RunResult.ok 0 "" "", queryResult := RunResult.ok 0 "0\n" "" }
      (by decide) 0 "" "" rfl rfl (by decide)).2.2.1,
   (c9_warning_clears_input_stays_open { initialDialog with entry := "file taxes due:2027-04-15" }
      { addResult := RunResult.ok 0 "" "", queryResult := RunResult.ok 0 "0\n" "" }
      (by decide) 0 "" "" rfl rfl (by decide)).2.2.2.2.2⟩

/-- C10: the periodic check quits the application exactly when
`has_valid_tasks` is true, in which case it also stops both timers; when
the predicate is false (query failure included) it changes nothing. -/
theorem c10_poll_quits_iff_valid (s : DialogState) (q : RunResult) :
    ((check_tasks_external s q).2 = has_valid_tasks q) ∧
    (has_valid_tasks q = true →
        (check_tasks_external s q).1 =
          { s with checkTimerRunning := false, topTimerRunning := false }) ∧
    (has_valid_tasks q = false →
        (check_tasks_external s q).1 = s ∧ (check_tasks_external s q).2 = false) := by
  cases hq : has_valid_tasks q with
  | true => simp [check_tasks_external, hq]
  | false => simp [check_tasks_external, hq]

theorem c10_witness :
    (check_tasks_external initialDialog (RunResult.ok 0 "1\n" "")).2 =
      has_valid_tasks (RunResult.ok 0 "1\n" "") :=
  (c10_poll_quits_iff_valid initialDialog (RunResult.ok 0 "1\n" "")).1
